import Mathlib

set_option maxRecDepth 100000

/-!
Verification of the adaptive questioning controller of `src/src/App.tsx`
(the "Prompt Questioning" application).

The development shallowly embeds the logic of the component:

* `checkRateLimit` — the persisted daily rate limiter (App.tsx lines 29–47);
* `validateInput` — the gibberish filter for project descriptions (lines 49–67);
* `generateNextQuestion` — the oracle client: brace extraction and parsing of
  the oracle's free-text reply (lines 96–248).  The external JSON parser is a
  parameter `parse : String → Option OracleJson`; a thrown invocation
  (missing key, spacing limit, network error, reply without text) is the
  `OracleReply.threw` case;
* `getFallbackQuestion` — the deterministic fallback source (lines 251–266);
* `handleStartProject`, `handleAnswerSubmit`, `skipQuestion`,
  `finishQuestioning`, `resetApp` — the controller transitions
  (lines 268–371 and the summary page's reset button, lines 815–821);
* `calculateAnalytics` — the analytics aggregator (lines 375–405).
  JavaScript floating-point arithmetic is modelled exactly over `ℚ`
  (`Math.round` is `round : ℚ → ℤ`, round half towards positive infinity);
  for the magnitudes reachable here the two agree.

Strings are Lean `String`s; character-level operations (`trim`,
`split(/\s+/)`, `replace(/[^a-zA-Z]/g)`, `substring`, `toLowerCase`,
`match(/\{[\s\S]*\}/)`) are spelled out over `List Char` below.
-/

/-- Lifecycle page of the app: the `page` state, line 18
(`'home' | 'questioning' | 'summary'`). -/
inductive Page where
  | home
  | questioning
  | summary
deriving DecidableEq, Repr

/-- Question kind: `'standard' | 'outside-box'` (line 10). -/
inductive QType where
  | standard
  | outsideBox
deriving DecidableEq, Repr

/-- A question record (App.tsx lines 5–11). -/
structure Question where
  id : Nat
  category : String
  question : String
  icon : String
  type : QType
deriving DecidableEq, Repr

/-- One prior question/answer pair as assembled for the oracle prompt
(lines 98, 311–314, 348–351). -/
structure QA where
  question : String
  answer : String
deriving DecidableEq, Repr

/-- The fields of the JSON object the oracle is instructed to emit
(prompt lines 175–202).  `JSON.parse` plus field access is abstracted as a
function `String → Option OracleJson`; `none` is a parse failure (a thrown
`SyntaxError`). -/
structure OracleJson where
  shouldContinue : Bool
  isValid : Bool
  validationType : String
  validationMessage : String
  category : String
  question : String
  icon : String
  type : QType
  reasoning : String
deriving DecidableEq, Repr

/-- The value of `generateNextQuestion`'s promise:
`{ question: Question; shouldContinue: boolean }` (line 99). -/
structure GenResult where
  question : Question
  shouldContinue : Bool
deriving DecidableEq, Repr

/-- The outcome of one oracle invocation, before reply processing.
`threw` covers every thrown path inside the `try` block: missing API key,
the one-second spacing check in `getApiKey` (lines 78–91), a failed
`generateContent` call, or a reply object without usable text. -/
inductive OracleReply where
  | threw
  | text (s : String)
deriving DecidableEq, Repr

/-- The persisted `projectCount` record in localStorage.
`absent` is a missing (or empty, hence falsy) stored string (line 33);
`invalid` is a stored string that `JSON.parse` rejects — the parse on
line 34 then throws and nothing catches it;
`valid date count` is a successfully parsed `{date, count}` record. -/
inductive StoredState where
  | absent
  | invalid
  | valid (date : String) (count : Int)
deriving DecidableEq, Repr

/-- Scope risk classification (line 380). -/
inductive Risk where
  | low
  | medium
  | high
deriving DecidableEq, Repr

/-- Result of `calculateAnalytics` (lines 394–404). -/
structure Analytics where
  answeredCount : Nat
  totalQuestions : Nat
  completeness : Int
  scopeRiskScore : Risk
  hasBudgetInfo : Bool
  hasTimelineInfo : Bool
  outsideBoxAnswered : Nat
deriving DecidableEq, Repr

/-- The whitespace class used by JavaScript `trim` and `/\s+/`
(restricted to the ASCII range actually relevant here). -/
def isJsWhitespace (c : Char) : Bool :=
  c = ' ' || c = '\t' || c = '\n' || c = '\r' || c = '\x0b' || c = '\x0c'

/-- `String.prototype.trim`. -/
def jsTrim (s : List Char) : List Char :=
  ((s.dropWhile isJsWhitespace).reverse.dropWhile isJsWhitespace).reverse

/-- Helper for `split(/\s+/)`: accumulates the current word (reversed). -/
def wordsAux : List Char → List Char → List (List Char)
  | [], acc => if acc.isEmpty then [] else [acc.reverse]
  | c :: cs, acc =>
    if isJsWhitespace c then
      if acc.isEmpty then wordsAux cs [] else acc.reverse :: wordsAux cs []
    else
      wordsAux cs (c :: acc)

/-- `text.split(/\s+/)` on already-trimmed text (line 54): the maximal
whitespace-free runs. -/
def splitWhitespace (s : List Char) : List (List Char) :=
  wordsAux s []

/-- `[a-zA-Z]` (line 56). -/
def isAsciiAlpha (c : Char) : Bool :=
  ('a' ≤ c && c ≤ 'z') || ('A' ≤ c && c ≤ 'Z')

/-- `[aeiouAEIOU]` (line 57). -/
def isVowelChar (c : Char) : Bool :=
  c = 'a' || c = 'e' || c = 'i' || c = 'o' || c = 'u' ||
    c = 'A' || c = 'E' || c = 'I' || c = 'O' || c = 'U'

/-- The word filter of `validateInput` (lines 55–60): strip non-alphabetic
characters, require a vowel and length at least 2. -/
def isMeaningfulWord (w : List Char) : Bool :=
  let cleanWord := w.filter isAsciiAlpha
  cleanWord.any isVowelChar && decide (2 ≤ cleanWord.length)

/-- The meaningful words of a description (lines 54–60). -/
def meaningfulWords (text : String) : List (List Char) :=
  (splitWhitespace (jsTrim text.data)).filter isMeaningfulWord

/-- `validateInput` (App.tsx lines 49–67).  First component: `valid`;
second: `error`.  The `!text` test on line 50 is subsumed by the length
test, since the empty string trims to length 0. -/
def validateInput (text : String) : Bool × String :=
  if (jsTrim text.data).length < 10 then
    (false, "Please provide a more detailed project description (at least 10 characters)")
  else if (meaningfulWords text).length < 3 then
    (false, "Please describe your project with real words.")
  else
    (true, "")

/-- `checkRateLimit` (App.tsx lines 29–47) as a function of the current
calendar-day string and the persisted record.  The result is the returned
boolean together with the new persisted record; `Except.error` is the
uncaught exception thrown by `JSON.parse` on a corrupt stored string. -/
def checkRateLimit (today : String) (stored : StoredState) :
    Except Unit (Bool × StoredState) :=
  match stored with
  | .absent => .ok (true, .valid today 1)
  | .invalid => .error ()
  | .valid date count =>
    if date = today then
      if 100 ≤ count then .ok (false, .valid date count)
      else .ok (true, .valid today (count + 1))
    else .ok (true, .valid today 1)

/-- Results of `n` successive `checkRateLimit` calls on the same day,
starting from a given persisted record. -/
def rateCallsAux (today : String) : Nat → StoredState → List Bool
  | 0, _ => []
  | n + 1, st =>
    match checkRateLimit today st with
    | .ok (b, st') => b :: rateCallsAux today n st'
    | .error _ => []

/-- Results of `n` successive same-day `checkRateLimit` calls starting with
no persisted record. -/
def rateCalls (today : String) (n : Nat) : List Bool :=
  rateCallsAux today n .absent

/-- The rate-limit denial message set by `handleStartProject` (line 276). -/
def rateLimitErrorMessage : String :=
  "You have reached your limit of 5 projects per day. Please try again tomorrow!"

/-- The usage badge rendered on the home page (line 534). -/
def homeRateLimitBadge : String :=
  "📊 2 Projects/Day"

/-- The message shown when the oracle returns a non-continuing decision at
session start (line 291). -/
def aiNoQuestionsMessage : String :=
  "AI determined no questions needed. Please provide more project details."

/-- The `{} as Question` cast on line 226: a question record whose fields
were never assigned. -/
def emptyQuestion : Question :=
  { id := 0, category := "", question := "", icon := "", type := .standard }

/-- `text.match(/\{[\s\S]*\}/)` (line 220): the greedy match runs from the
first `\x7b` to the last `\x7d` of the reply; there is no match when no such
pair exists. -/
def braceMatch (s : List Char) : Option (List Char) :=
  let fromBrace := s.dropWhile (fun c => !(c = '{'))
  let upToBrace := (fromBrace.reverse.dropWhile (fun c => !(c = '}'))).reverse
  match upToBrace with
  | [] => none
  | _ :: _ => some upToBrace

/-- `generateNextQuestion` (App.tsx lines 96–248), given the JSON parser
`parse`, the project description (used only for prompt construction), the
prior answered question/answer pairs, and the oracle invocation outcome.
A thrown invocation, a reply without a brace-delimited substring, and a
parse failure all produce `none` (lines 243–247); a parsed object with
`shouldContinue` false produces the `\x7b\x7d as Question` stop result
(lines 224–229); otherwise the new question is built with
`id := previousQA.length + 1` (lines 231–240). -/
def generateNextQuestion (parse : String → Option OracleJson)
    (projectDesc : String) (previousQA : List QA) (reply : OracleReply) :
    Option GenResult :=
  match reply with
  | .threw => none
  | .text t =>
    match braceMatch t.data with
    | none => none
    | some jsonChars =>
      match parse (String.mk jsonChars) with
      | none => none
      | some data =>
        if data.shouldContinue = false then
          some { question := emptyQuestion, shouldContinue := false }
        else
          some { question :=
                  { id := previousQA.length + 1,
                    category := data.category,
                    question := data.question,
                    icon := data.icon,
                    type := data.type },
                 shouldContinue := true }

/-- `projectDesc.substring(0, n)`. -/
def jsSubstringTo (s : String) (n : Nat) : String :=
  String.mk (s.data.take n)

/-- The fixed fallback question list (App.tsx lines 252–263). -/
def fallbackQuestions (projectDesc : String) : List Question :=
  [ { id := 1, category := "Project Vision",
      question := "What specific problem does \"" ++ jsSubstringTo projectDesc 50 ++ "...\" solve?",
      icon := "🎯", type := .standard },
    { id := 2, category := "Target Audience",
      question := "Who exactly will use this? Describe their demographics and needs.",
      icon := "👥", type := .standard },
    { id := 3, category := "Timeline",
      question := "When do you need this completed? Any critical deadlines?",
      icon := "📅", type := .standard },
    { id := 4, category := "Budget",
      question := "What is your total budget? Maximum you\u0027re willing to spend?",
      icon := "💰", type := .standard },
    { id := 5, category := "Success Metrics",
      question := "How will you measure if this project is successful?",
      icon := "📊", type := .standard },
    { id := 6, category := "Key Features",
      question := "What are the must-have features versus nice-to-have?",
      icon := "⚡", type := .standard },
    { id := 7, category := "Resources",
      question := "What resources (people, tools, equipment) do you currently have?",
      icon := "🛠️", type := .standard },
    { id := 8, category := "Dependencies",
      question := "Does this project depend on any other projects or external factors?",
      icon := "🔗", type := .standard },
    { id := 9, category := "Risks",
      question := "What are the top 3 risks that could derail this project?",
      icon := "⚠️", type := .outsideBox },
    { id := 10, category := "Stakeholders",
      question := "Who needs to approve decisions? Who are all key stakeholders?",
      icon := "👔", type := .standard } ]

/-- `getFallbackQuestion` (App.tsx lines 251–266):
`fallbackQuestions[Math.min(questionCount, fallbackQuestions.length - 1)]`. -/
def getFallbackQuestion (projectDesc : String) (questionCount : Nat) : Question :=
  (fallbackQuestions projectDesc).getD
    (min questionCount ((fallbackQuestions projectDesc).length - 1)) emptyQuestion

/-- The component's state (App.tsx lines 18–25).  The two transient busy
flags (`isGenerating`, `isGeneratingQuestion`) are set and cleared within a
single handler and are omitted.  The `answers` object is an association
list keyed by question index. -/
structure AppState where
  page : Page
  projectInput : String
  questions : List Question
  currentQuestionIndex : Nat
  answers : List (Nat × String)
  currentAnswer : String
  inputError : String
deriving DecidableEq, Repr

/-- Component state together with the persisted localStorage record. -/
structure World where
  app : AppState
  rate : StoredState
deriving DecidableEq, Repr

/-- `answers[i] || ''` (lines 313, 350). -/
def lookupAnswer (answers : List (Nat × String)) (i : Nat) : String :=
  (answers.lookup i).getD ""

/-- `{ ...answers, [k]: v }` (line 307): functional update of the keyed
object. -/
def mapInsert (answers : List (Nat × String)) (k : Nat) (v : String) :
    List (Nat × String) :=
  if answers.any (fun p => p.1 == k) then
    answers.map (fun p => if p.1 == k then (k, v) else p)
  else
    answers ++ [(k, v)]

/-- Common shape of the `previousQA` constructions (lines 311–314 and
348–351): map each listed question to its text and an answer determined by
its index, then keep the pairs whose answer is truthy (non-empty). -/
def buildQA (qs : List Question) (answerAt : Nat → String) : List QA :=
  (qs.enum.map fun p => ({ question := p.2.question, answer := answerAt p.1 } : QA)).filter
    fun qa => !(qa.answer == "")

/-- The `previousQA` of `handleAnswerSubmit` (lines 311–314): the first
`currentQuestionIndex + 1` questions, the current one answered by
`currentAnswer`, the others by the stored answers. -/
def submitPrevQA (s : AppState) : List QA :=
  buildQA (s.questions.take (s.currentQuestionIndex + 1)) fun i =>
    if i == s.currentQuestionIndex then s.currentAnswer else lookupAnswer s.answers i

/-- The `previousQA` of `skipQuestion` (lines 348–351): the questions
before the current one, answered from the stored answers only. -/
def skipPrevQA (s : AppState) : List QA :=
  buildQA (s.questions.take s.currentQuestionIndex) fun i => lookupAnswer s.answers i

/-- `handleStartProject` (App.tsx lines 268–301).  Validation failure and
rate-limit denial record an error message and stay on the home page; a
rate-limiter exception (corrupt persisted record) aborts the handler with
no state change.  Otherwise the oracle outcome drives the three-way branch
of lines 286–298. -/
def handleStartProject (parse : String → Option OracleJson) (today : String)
    (reply : OracleReply) (w : World) : World :=
  if (validateInput w.app.projectInput).1 = false then
    { w with app := { w.app with inputError := (validateInput w.app.projectInput).2 } }
  else
    match checkRateLimit today w.rate with
    | .error _ => w
    | .ok (allowed, rate') =>
      if allowed = false then
        { app := { w.app with inputError := rateLimitErrorMessage }, rate := rate' }
      else
        match generateNextQuestion parse w.app.projectInput [] reply with
        | some result =>
          if result.shouldContinue then
            { app := { w.app with
                inputError := "",
                questions := [result.question],
                page := .questioning,
                currentQuestionIndex := 0 },
              rate := rate' }
          else
            { app := { w.app with inputError := aiNoQuestionsMessage }, rate := rate' }
        | none =>
          { app := { w.app with
              inputError := "",
              questions := [getFallbackQuestion w.app.projectInput 0],
              page := .questioning,
              currentQuestionIndex := 0 },
            rate := rate' }

/-- `handleAnswerSubmit` (App.tsx lines 303–341).  A blank answer is a
no-op (line 304).  Otherwise the answer is recorded, and if fewer than 20
answered pairs exist the oracle outcome drives the continue / stop /
fallback branch of lines 323–334; at 20 answered pairs the session ends
(line 337). -/
def handleAnswerSubmit (parse : String → Option OracleJson)
    (reply : OracleReply) (w : World) : World :=
  if jsTrim w.app.currentAnswer.data = [] then w
  else if (submitPrevQA w.app).length < 20 then
    match generateNextQuestion parse w.app.projectInput (submitPrevQA w.app) reply with
    | some result =>
      if result.shouldContinue then
        { w with app := { w.app with
            answers := mapInsert w.app.answers w.app.currentQuestionIndex w.app.currentAnswer,
            currentAnswer := "",
            questions := w.app.questions ++ [result.question],
            currentQuestionIndex := w.app.currentQuestionIndex + 1 } }
      else
        { w with app := { w.app with
            answers := mapInsert w.app.answers w.app.currentQuestionIndex w.app.currentAnswer,
            currentAnswer := "",
            page := .summary } }
    | none =>
      { w with app := { w.app with
          answers := mapInsert w.app.answers w.app.currentQuestionIndex w.app.currentAnswer,
          currentAnswer := "",
          questions := w.app.questions ++
            [getFallbackQuestion w.app.projectInput (submitPrevQA w.app).length],
          currentQuestionIndex := w.app.currentQuestionIndex + 1 } }
  else
    { w with app := { w.app with
        answers := mapInsert w.app.answers w.app.currentQuestionIndex w.app.currentAnswer,
        currentAnswer := "",
        page := .summary } }

/-- `skipQuestion` (App.tsx lines 343–367).  No answer is recorded; the
oracle outcome drives lines 356–361, where a continuing decision appends
its question and *every other outcome* — stop decision or `null` — ends
the session. -/
def skipQuestion (parse : String → Option OracleJson)
    (reply : OracleReply) (w : World) : World :=
  if (skipPrevQA w.app).length < 20 then
    match generateNextQuestion parse w.app.projectInput (skipPrevQA w.app) reply with
    | some result =>
      if result.shouldContinue then
        { w with app := { w.app with
            currentAnswer := "",
            questions := w.app.questions ++ [result.question],
            currentQuestionIndex := w.app.currentQuestionIndex + 1 } }
      else
        { w with app := { w.app with currentAnswer := "", page := .summary } }
    | none =>
      { w with app := { w.app with currentAnswer := "", page := .summary } }
  else
    { w with app := { w.app with currentAnswer := "", page := .summary } }

/-- `finishQuestioning` (App.tsx lines 369–371). -/
def finishQuestioning (w : World) : World :=
  { w with app := { w.app with page := .summary } }

/-- `handleInputChange` (App.tsx lines 69–75): update the description and
clear a pending error once the field is non-empty. -/
def handleInputChange (value : String) (w : World) : World :=
  { w with app := { w.app with
      projectInput := value,
      inputError := if w.app.inputError ≠ "" ∧ 0 < value.length then "" else w.app.inputError } }

/-- The reset performed by the summary page's start-over button
(App.tsx lines 815–821).  `currentAnswer` and `inputError` are left as they
were, exactly as in the source. -/
def resetApp (w : World) : World :=
  { w with app := { w.app with
      page := .home,
      projectInput := "",
      answers := [],
      currentQuestionIndex := 0,
      questions := [] } }

/-- The user actions available on the three pages.  `start`, `submitAnswer`
and `skip` carry the outcome of the oracle invocation they trigger;
`start` also carries the calendar-day string read at call time. -/
inductive UserAction where
  | setInput (value : String)
  | setAnswer (value : String)
  | start (today : String) (reply : OracleReply)
  | submitAnswer (reply : OracleReply)
  | skip (reply : OracleReply)
  | finish
  | reset
deriving DecidableEq, Repr

/-- The start button's enabled condition (line 505):
`projectInput.trim()` truthy and no pending error (`isGenerating` is
transient and always false between events). -/
def startEnabled (s : AppState) : Bool :=
  !(jsTrim s.projectInput.data == []) && (s.inputError == "")

/-- One user event.  Each handler is reachable only from the page that
renders its control; an action fired elsewhere is a no-op. -/
def stepA (parse : String → Option OracleJson) (a : UserAction) (w : World) : World :=
  match a with
  | .setInput v => if w.app.page = .home then handleInputChange v w else w
  | .setAnswer v =>
    if w.app.page = .questioning then
      { w with app := { w.app with currentAnswer := v } }
    else w
  | .start today reply =>
    if w.app.page = .home ∧ startEnabled w.app = true then
      handleStartProject parse today reply w
    else w
  | .submitAnswer reply =>
    if w.app.page = .questioning then handleAnswerSubmit parse reply w else w
  | .skip reply =>
    if w.app.page = .questioning then skipQuestion parse reply w else w
  | .finish => if w.app.page = .questioning then finishQuestioning w else w
  | .reset => if w.app.page = .summary then resetApp w else w

/-- The state at component mount, with an arbitrary persisted record. -/
def initialWorld (r : StoredState) : World :=
  { app := { page := .home,
             projectInput := "",
             questions := [],
             currentQuestionIndex := 0,
             answers := [],
             currentAnswer := "",
             inputError := "" },
    rate := r }

/-- Run a sequence of user events. -/
def runTrace (parse : String → Option OracleJson) (actions : List UserAction)
    (w : World) : World :=
  actions.foldl (fun acc a => stepA parse a acc) w

/-- Reachable worlds: the initial state and everything produced by user
events. -/
inductive Reach (parse : String → Option OracleJson) (r0 : StoredState) :
    World → Prop where
  | init : Reach parse r0 (initialWorld r0)
  | next {w : World} (h : Reach parse r0 w) (a : UserAction) :
      Reach parse r0 (stepA parse a w)

/-- Case-insensitive substring test:
`category.toLowerCase().includes(pat)` (lines 385, 390). -/
def containsSubstring (hay pat : List Char) : Bool :=
  (List.range (hay.length + 1)).any fun i => pat.isPrefixOf (hay.drop i)

/-- `s.toLowerCase()` (ASCII case folding). -/
def toLowerStr (s : String) : String :=
  String.mk (s.data.map Char.toLower)

/-- `questions[idx]?.category?.toLowerCase().includes(pat)` with the
optional chaining collapsing to false when the index is out of range. -/
def categoryContains (questions : List Question) (idx : Nat) (pat : String) : Bool :=
  match questions.get? idx with
  | some q => containsSubstring (toLowerStr q.category).data pat.data
  | none => false

/-- `calculateAnalytics` (App.tsx lines 375–405), as a function of the
question list and the answer map. -/
def calculateAnalytics (questions : List Question)
    (answers : List (Nat × String)) : Analytics :=
  let answeredCount := answers.length
  let totalQuestions := questions.length
  let completeness : Int :=
    if 0 < totalQuestions then
      round (((answeredCount : ℚ) / (totalQuestions : ℚ)) * 100)
    else 0
  let scopeRiskScore : Risk :=
    if completeness < 60 then .high
    else if completeness < 80 then .medium
    else .low
  { answeredCount := answeredCount,
    totalQuestions := totalQuestions,
    completeness := completeness,
    scopeRiskScore := scopeRiskScore,
    hasBudgetInfo :=
      decide (0 < (answers.filter fun p => categoryContains questions p.1 "budget").length),
    hasTimelineInfo :=
      decide (0 < (answers.filter fun p => categoryContains questions p.1 "timeline").length),
    outsideBoxAnswered :=
      (answers.filter fun p =>
        match questions.get? p.1 with
        | some q => decide (q.type = QType.outsideBox)
        | none => false).length }

/-! ### The oracle client: `null` outcomes (claim C5) -/

/-- Claim C5: `generateNextQuestion` returns `none` exactly when the oracle
invocation threw, the reply contains no brace-delimited substring, or the
extracted substring fails to parse; and a successfully parsed stop decision
(`shouldContinue` false) is returned as a non-null result, not as `none`. -/
theorem generateNextQuestion_none_iff (parse : String → Option OracleJson)
    (desc : String) (prev : List QA) (reply : OracleReply) :
    (generateNextQuestion parse desc prev reply = none ↔
      reply = .threw ∨
        ∃ t, reply = .text t ∧
          (braceMatch t.data = none ∨
            ∃ j, braceMatch t.data = some j ∧ parse (String.mk j) = none)) ∧
    (∀ t j d, reply = OracleReply.text t → braceMatch t.data = some j →
      parse (String.mk j) = some d → d.shouldContinue = false →
      generateNextQuestion parse desc prev reply =
        some { question := emptyQuestion, shouldContinue := false }) := by
  constructor
  · cases reply with
    | threw => simp [generateNextQuestion]
    | text t =>
      simp only [generateNextQuestion]
      cases hb : braceMatch t.data with
      | none => simp [hb]
      | some j =>
        cases hp : parse (String.mk j) with
        | none => simp [hb, hp]
        | some d =>
          by_cases hc : d.shouldContinue = false <;> simp [hb, hp, hc]
  · intro t j d ht hb hp hc
    subst ht
    simp [generateNextQuestion, hb, hp, hc]

/-- A parse function returning a parsed stop decision, used to exercise C5. -/
def stopParseFn : String → Option OracleJson :=
  fun _ => some { shouldContinue := false, isValid := true, validationType := "",
                  validationMessage := "", category := "", question := "",
                  icon := "", type := .standard, reasoning := "enough" }

/-- Witness for C5: a reply whose brace-delimited substring parses to a stop
decision yields the non-null stop result. -/
theorem generateNextQuestion_none_iff_witness :
    generateNextQuestion stopParseFn "a project" [] (.text "x\x7bq\x7dy") =
      some { question := emptyQuestion, shouldContinue := false } :=
  (generateNextQuestion_none_iff stopParseFn "a project" [] (.text "x\x7bq\x7dy")).2
    "x\x7bq\x7dy" "\x7bq\x7d".data
    { shouldContinue := false, isValid := true, validationType := "",
      validationMessage := "", category := "", question := "",
      icon := "", type := .standard, reasoning := "enough" }
    rfl (by decide) rfl rfl

/-! ### The input validator (claim C6) -/

/-- Claim C6: `validateInput` accepts exactly the inputs whose trimmed
length is at least 10 and which contain at least 3 meaningful words, where
a word is meaningful exactly when, after stripping non-alphabetic
characters, it has length at least 2 and contains a vowel.  The spec's two
example inputs behave as stated.  (Purity is immediate: the embedding is a
function of the input string alone.) -/
theorem validateInput_spec (text : String) :
    ((validateInput text).1 = true ↔
      10 ≤ (jsTrim text.data).length ∧ 3 ≤ (meaningfulWords text).length) ∧
    (∀ w : List Char, isMeaningfulWord w = true ↔
      (w.filter isAsciiAlpha).any isVowelChar = true ∧
        2 ≤ (w.filter isAsciiAlpha).length) ∧
    (validateInput "ab cd").1 = false ∧
    (validateInput "build a mobile app for dog walkers").1 = true := by
  refine ⟨?_, ?_, by decide, by decide⟩
  · unfold validateInput
    split_ifs with h1 h2 <;> simp <;> omega
  · intro w
    simp [isMeaningfulWord, Bool.and_eq_true, decide_eq_true_eq]

/-! ### The rate limiter (claims C7 and C10) -/

/-- Claim C7: behaviour of `checkRateLimit` at each shape of persisted
state.  A missing record, or a record from another day, succeeds and resets
the count to 1; a same-day record below the cap succeeds and increments; a
same-day record at the cap is denied with the record unchanged.  A corrupt
(unparseable) record, however, makes the call THROW — the uncaught
`JSON.parse` exception of App.tsx line 34 — rather than being treated as
no prior usage, contradicting the claim for that case. -/
theorem checkRateLimit_cases :
    checkRateLimit "Sat Oct 11 2025" .invalid = .error () ∧
    checkRateLimit "Sat Oct 11 2025" .absent =
      .ok (true, .valid "Sat Oct 11 2025" 1) ∧
    checkRateLimit "Sat Oct 11 2025" (.valid "Fri Oct 10 2025" 100) =
      .ok (true, .valid "Sat Oct 11 2025" 1) ∧
    checkRateLimit "Sat Oct 11 2025" (.valid "Sat Oct 11 2025" 7) =
      .ok (true, .valid "Sat Oct 11 2025" 8) ∧
    checkRateLimit "Sat Oct 11 2025" (.valid "Sat Oct 11 2025" 100) =
      .ok (false, .valid "Sat Oct 11 2025" 100) := by
  refine ⟨rfl, rfl, ?_, ?_, ?_⟩ <;> simp [checkRateLimit]

/-- Same-day runs of the limiter starting from a parsed record: call `k`
(0-based) succeeds exactly when `c + k < 100`. -/
theorem rateCallsAux_getD (today : String) :
    ∀ (n : Nat) (c : Int) (k : Nat), k < n →
      ((rateCallsAux today n (.valid today c)).getD k false = true ↔
        c + k < 100) := by
  intro n
  induction n with
  | zero => intro c k hk; omega
  | succ m ih =>
    intro c k hk
    have hstep : rateCallsAux today (m + 1) (.valid today c) =
        (if 100 ≤ c then false else true) ::
          rateCallsAux today m (.valid today (if 100 ≤ c then c else c + 1)) := by
      by_cases h : (100 : Int) ≤ c <;> simp [rateCallsAux, checkRateLimit, h]
    rw [hstep]
    cases k with
    | zero =>
      by_cases h : (100 : Int) ≤ c
      · rw [if_pos h]; simp; omega
      · rw [if_neg h]; simp; omega
    | succ k' =>
      simp only [List.getD_cons_succ]
      by_cases h : (100 : Int) ≤ c
      · rw [if_pos h, ih c k' (by omega)]
        constructor <;> intro <;> omega
      · rw [if_neg h, ih (c + 1) k' (by omega)]
        constructor <;> intro <;> omega

/-- From an absent record, call `k` (0-based) of a same-day run succeeds
exactly when `k < 100`. -/
theorem rateCalls_getD (today : String) (n k : Nat) (hk : k < n) :
    ((rateCalls today n).getD k false = true ↔ k < 100) := by
  cases n with
  | zero => omega
  | succ m =>
    have hstep : rateCalls today (m + 1) =
        true :: rateCallsAux today m (.valid today 1) := by
      simp [rateCalls, rateCallsAux, checkRateLimit]
    rw [hstep]
    cases k with
    | zero => simp
    | succ k' =>
      simp only [List.getD_cons_succ]
      rw [rateCallsAux_getD today m 1 k' (by omega)]
      constructor <;> intro <;> omega

/-- Claim C10: the configured daily cap is 100 — in a same-day run started
with no persisted record, call `k` succeeds exactly when `k < 100`, so the
first 100 calls succeed and every later same-day call is denied — while the
denial message shown to the user claims a limit of 5 projects per day and
the home page badge advertises 2 per day. -/
theorem rateLimit_cap_100 (today : String) (n k : Nat) (h : k < n) :
    ((rateCalls today n).getD k false = true ↔ k < 100) ∧
    (∃ a b : String, rateLimitErrorMessage = a ++ "5 projects per day" ++ b) ∧
    (∃ a b : String, homeRateLimitBadge = a ++ "2 Projects/Day" ++ b) :=
  ⟨rateCalls_getD today n k h,
    ⟨"You have reached your limit of ", ". Please try again tomorrow!", by decide⟩,
    ⟨"📊 ", "", by decide⟩⟩

/-- Witness for C10: in a run of 101 same-day calls, call 99 (0-based)
succeeds and call 100 is denied. -/
theorem rateLimit_cap_100_witness :
    (((rateCalls "Sat Oct 11 2025" 101).getD 100 false = true ↔ 100 < 100) ∧
      (∃ a b : String, rateLimitErrorMessage = a ++ "5 projects per day" ++ b) ∧
      (∃ a b : String, homeRateLimitBadge = a ++ "2 Projects/Day" ++ b)) ∧
    (((rateCalls "Sat Oct 11 2025" 101).getD 99 false = true ↔ 99 < 100) ∧
      (∃ a b : String, rateLimitErrorMessage = a ++ "5 projects per day" ++ b) ∧
      (∃ a b : String, homeRateLimitBadge = a ++ "2 Projects/Day" ++ b)) :=
  ⟨rateLimit_cap_100 "Sat Oct 11 2025" 101 100 (by omega),
   rateLimit_cap_100 "Sat Oct 11 2025" 101 99 (by omega)⟩

/-! ### The fallback question source (claim C8) -/

/-- Claim C8: `getFallbackQuestion` returns the `answeredCount`-th entry of
the fixed ten-element fallback list, clamped to the last entry; the index
used is always in range (never out of bounds, never a failure), entry 0 is
the Project Vision question and any count at or past the end (such as 999)
yields the tenth (Stakeholders) question. -/
theorem getFallbackQuestion_spec (desc : String) (n : Nat) :
    (fallbackQuestions desc).length = 10 ∧
    min n ((fallbackQuestions desc).length - 1) < (fallbackQuestions desc).length ∧
    getFallbackQuestion desc n =
      (fallbackQuestions desc).getD (min n 9) emptyQuestion ∧
    (getFallbackQuestion desc n).id = min n 9 + 1 ∧
    getFallbackQuestion desc 0 =
      { id := 1, category := "Project Vision",
        question := "What specific problem does \"" ++ jsSubstringTo desc 50 ++ "...\" solve?",
        icon := "🎯", type := .standard } ∧
    getFallbackQuestion desc 999 =
      { id := 10, category := "Stakeholders",
        question := "Who needs to approve decisions? Who are all key stakeholders?",
        icon := "👔", type := .standard } := by
  have hlen : (fallbackQuestions desc).length = 10 := rfl
  refine ⟨rfl, ?_, rfl, ?_, rfl, rfl⟩
  · rw [hlen]; omega
  · rcases Nat.lt_or_ge n 10 with h | h
    · interval_cases n <;> rfl
    · have h9 : min n 9 = 9 := by omega
      have h9' : min n ((fallbackQuestions desc).length - 1) = 9 := by
        rw [hlen]; omega
      unfold getFallbackQuestion
      rw [h9, h9']
      rfl

/-! ### The analytics aggregator (claim C9) -/

/-- Claim C9: `calculateAnalytics` computes completeness as
`round(100 * answeredCount / totalQuestions)` (0 when there are no
questions) and classifies risk as High below 60, Medium in [60, 80) and
Low at 80 or above; with no questions and no answers the result is
completeness 0 and risk High. -/
theorem calculateAnalytics_spec (questions : List Question)
    (answers : List (Nat × String)) :
    ((calculateAnalytics questions answers).completeness =
      if questions.length = 0 then 0
      else round ((100 : ℚ) * (answers.length : ℚ) / (questions.length : ℚ))) ∧
    ((calculateAnalytics questions answers).scopeRiskScore = .high ↔
      (calculateAnalytics questions answers).completeness < 60) ∧
    ((calculateAnalytics questions answers).scopeRiskScore = .medium ↔
      60 ≤ (calculateAnalytics questions answers).completeness ∧
        (calculateAnalytics questions answers).completeness < 80) ∧
    ((calculateAnalytics questions answers).scopeRiskScore = .low ↔
      80 ≤ (calculateAnalytics questions answers).completeness) ∧
    (calculateAnalytics [] []).completeness = 0 ∧
    (calculateAnalytics [] []).scopeRiskScore = .high := by
  refine ⟨?_, ?_, ?_, ?_, by decide, by decide⟩
  · simp only [calculateAnalytics]
    rcases Nat.eq_zero_or_pos questions.length with h | h
    · simp [h]
    · rw [if_pos h, if_neg (by omega)]
      congr 1
      ring
  all_goals
    simp only [calculateAnalytics]
    split_ifs <;> simp_all <;> omega

/-! ### Controller counterexamples and behaviour (claims C1–C4) -/

/-- A parse function whose replies always carry a continuing decision. -/
def contParseFn : String → Option OracleJson :=
  fun _ => some { shouldContinue := true, isValid := true, validationType := "",
                  validationMessage := "", category := "Scope",
                  question := "Next?", icon := "Q", type := .standard,
                  reasoning := "" }

/-- A parse function whose replies always carry a rejection decision
(`shouldContinue` false, `isValid` false, with a validation message). -/
def rejectParseFn : String → Option OracleJson :=
  fun _ => some { shouldContinue := false, isValid := false,
                  validationType := "gibberish",
                  validationMessage := "ZQJX: not a real project",
                  category := "", question := "", icon := "",
                  type := .standard, reasoning := "rejected" }

/-- A valid project description used by the concrete traces. -/
def descX : String := "build a mobile app for dog walkers"

/-- Type the description, then start with a thrown oracle call (so the
first question is the fallback question). -/
def startFallbackTrace : List UserAction :=
  [UserAction.setInput descX, UserAction.start "Sat Oct 11 2025" .threw]

/-- After starting, skip 20 times with the oracle returning a continuing
decision every time. -/
def skipFloodTrace : List UserAction :=
  startFallbackTrace ++ List.replicate 20 (UserAction.skip (.text "\x7ba\x7d"))

/-- Counterexample to claim C1: the reachable state after one start and 20
skips (each answered by a continuing oracle decision) holds 21 questions —
the question list is NOT bounded by 20, because the guards of
`handleAnswerSubmit` and `skipQuestion` count only *answered* pairs and a
skipped question contributes nothing to that count. -/
theorem questionHistory_exceeds_20 :
    (runTrace contParseFn skipFloodTrace (initialWorld .absent)).app.questions.length = 21 ∧
    (runTrace contParseFn skipFloodTrace (initialWorld .absent)).app.page =
      Page.questioning := by
  constructor <;> rfl

/-- Counterexample to claim C2: from a questioning state holding one
question, a skip whose oracle call returns `null` appends NO fallback
question and terminates the session (page becomes summary), contradicting
the claim that every null outcome appends exactly one fallback question
and keeps the session questioning. -/
theorem skip_null_terminates :
    (runTrace contParseFn startFallbackTrace (initialWorld .absent)).app.questions.length = 1 ∧
    (runTrace contParseFn startFallbackTrace (initialWorld .absent)).app.page =
      Page.questioning ∧
    (stepA contParseFn (.skip .threw)
        (runTrace contParseFn startFallbackTrace (initialWorld .absent))).app.questions.length = 1 ∧
    (stepA contParseFn (.skip .threw)
        (runTrace contParseFn startFallbackTrace (initialWorld .absent))).app.page =
      Page.summary := by
  refine ⟨rfl, rfl, rfl, rfl⟩

/-- Start attempt whose oracle reply parses to a rejection decision. -/
def rejectionTrace : List UserAction :=
  [UserAction.setInput descX, UserAction.start "Sat Oct 11 2025" (.text "\x7br\x7d")]

/-- Counterexample to claim C3: when the oracle returns a rejection
decision carrying the validation message "ZQJX: not a real project", the
session does stay on the home page, but the user-facing error is the fixed
generic text `aiNoQuestionsMessage`; the oracle's own rejection text (its
marker "ZQJX" does not even occur in the shown message) is discarded. -/
theorem rejection_message_not_surfaced :
    (runTrace rejectParseFn rejectionTrace (initialWorld .absent)).app.page = Page.home ∧
    (runTrace rejectParseFn rejectionTrace (initialWorld .absent)).app.inputError =
      aiNoQuestionsMessage ∧
    ¬ ∃ a b : String,
        (runTrace rejectParseFn rejectionTrace (initialWorld .absent)).app.inputError =
          a ++ "ZQJX" ++ b := by
  have herr : (runTrace rejectParseFn rejectionTrace (initialWorld .absent)).app.inputError =
      aiNoQuestionsMessage := rfl
  refine ⟨rfl, herr, ?_⟩
  rintro ⟨a, b, h⟩
  rw [herr] at h
  have hz : 'Z' ∈ (a ++ "ZQJX" ++ b).data := by
    rw [String.data_append, String.data_append]
    exact List.mem_append_left _ (List.mem_append_right _ (by decide))
  rw [← h] at hz
  exact absurd hz (by decide)

/-- Counterexample to claim C4: after the fallback first question, a skip
answered by a continuing oracle decision appends a question at 1-based
position 2 whose id is 1 (`previousQA.length + 1` with zero answered
pairs), so a question's id does not equal its position in the list. -/
theorem question_id_mismatch :
    (runTrace contParseFn (startFallbackTrace ++ [UserAction.skip (.text "\x7ba\x7d")])
        (initialWorld .absent)).app.questions.length = 2 ∧
    ((runTrace contParseFn (startFallbackTrace ++ [UserAction.skip (.text "\x7ba\x7d")])
        (initialWorld .absent)).app.questions.getD 1 emptyQuestion).id = 1 := by
  constructor <;> rfl

/-- A continuing decision built by `generateNextQuestion` carries
`id = previousQA.length + 1` (App.tsx line 233). -/
theorem genNext_continue_id (parse : String → Option OracleJson)
    (desc : String) (prev : List QA) (reply : OracleReply) (r : GenResult)
    (hgen : generateNextQuestion parse desc prev reply = some r)
    (hc : r.shouldContinue = true) :
    r.question.id = prev.length + 1 := by
  cases reply with
  | threw => simp [generateNextQuestion] at hgen
  | text t =>
    simp only [generateNextQuestion] at hgen
    split at hgen
    · simp at hgen
    · split at hgen
      · simp at hgen
      · split at hgen
        · injection hgen with h
          rw [← h] at hc
          simp at hc
        · injection hgen with h
          rw [← h]

/-- Claim C3 (amended): when the oracle returns a non-continuing (stop or
rejection) decision at session start, the session stays on the home page,
but the user-facing message is the fixed generic text
`aiNoQuestionsMessage`; the parsed reply's `validationMessage` was already
discarded by `generateNextQuestion` (whose stop result is the empty
question record) and is never surfaced. -/
theorem rejection_shows_generic_message (parse : String → Option OracleJson)
    (today : String) (reply : OracleReply) (w : World) (r : GenResult)
    (st : StoredState)
    (hpage : w.app.page = .home) (hen : startEnabled w.app = true)
    (hval : (validateInput w.app.projectInput).1 = true)
    (hrate : checkRateLimit today w.rate = .ok (true, st))
    (hgen : generateNextQuestion parse w.app.projectInput [] reply = some r)
    (hstop : r.shouldContinue = false) :
    (stepA parse (.start today reply) w).app.page = Page.home ∧
    (stepA parse (.start today reply) w).app.inputError = aiNoQuestionsMessage := by
  simp only [stepA]
  rw [if_pos ⟨hpage, hen⟩]
  simp only [handleStartProject, hrate, hgen]
  rw [if_neg (by simp [hval])]
  simp [hstop, hpage]

/-- Witness for the amended C3 at a concrete rejection run. -/
theorem rejection_shows_generic_message_witness :
    (stepA rejectParseFn (.start "Sat Oct 11 2025" (.text "\x7br\x7d"))
        (stepA rejectParseFn (.setInput descX) (initialWorld .absent))).app.page =
      Page.home ∧
    (stepA rejectParseFn (.start "Sat Oct 11 2025" (.text "\x7br\x7d"))
        (stepA rejectParseFn (.setInput descX) (initialWorld .absent))).app.inputError =
      aiNoQuestionsMessage :=
  rejection_shows_generic_message rejectParseFn "Sat Oct 11 2025"
    (.text "\x7br\x7d")
    (stepA rejectParseFn (.setInput descX) (initialWorld .absent))
    { question := emptyQuestion, shouldContinue := false }
    (.valid "Sat Oct 11 2025" 1)
    rfl (by decide) (by decide) rfl rfl rfl

/-- Claim C2 (amended): a null oracle outcome during `start` or
`submitAnswer` appends exactly one fallback question — never zero, never
two — and leaves the session questioning; but a null outcome during `skip`
appends NOTHING and moves the session to the summary page, because
`skipQuestion` merges the null case with the stop case (App.tsx
lines 356–361). -/
theorem null_reply_fallback_behaviour (parse : String → Option OracleJson)
    (today : String) (reply : OracleReply) (w : World) :
    (w.app.page = .home → startEnabled w.app = true →
      (validateInput w.app.projectInput).1 = true →
      ∀ st : StoredState, checkRateLimit today w.rate = .ok (true, st) →
      generateNextQuestion parse w.app.projectInput [] reply = none →
      (stepA parse (.start today reply) w).app.questions =
          [getFallbackQuestion w.app.projectInput 0] ∧
        (stepA parse (.start today reply) w).app.page = .questioning) ∧
    (w.app.page = .questioning → jsTrim w.app.currentAnswer.data ≠ [] →
      (submitPrevQA w.app).length < 20 →
      generateNextQuestion parse w.app.projectInput (submitPrevQA w.app) reply = none →
      (stepA parse (.submitAnswer reply) w).app.questions =
          w.app.questions ++
            [getFallbackQuestion w.app.projectInput (submitPrevQA w.app).length] ∧
        (stepA parse (.submitAnswer reply) w).app.page = .questioning) ∧
    (w.app.page = .questioning →
      (skipPrevQA w.app).length < 20 →
      generateNextQuestion parse w.app.projectInput (skipPrevQA w.app) reply = none →
      (stepA parse (.skip reply) w).app.page = .summary ∧
        (stepA parse (.skip reply) w).app.questions = w.app.questions) := by
  refine ⟨?_, ?_, ?_⟩
  · intro hpage hen hval st hrate hgen
    simp only [stepA]
    rw [if_pos ⟨hpage, hen⟩]
    simp only [handleStartProject, hrate, hgen]
    rw [if_neg (by simp [hval])]
    simp
  · intro hpage hblank hlt hgen
    simp only [stepA]
    rw [if_pos hpage]
    simp only [handleAnswerSubmit, hgen]
    rw [if_neg hblank, if_pos hlt]
    simp [hpage]
  · intro hpage hlt hgen
    simp only [stepA]
    rw [if_pos hpage]
    simp only [skipQuestion, hgen]
    rw [if_pos hlt]
    simp

/-- The home page with the example description typed in. -/
def typedWorld : World :=
  stepA contParseFn (.setInput descX) (initialWorld .absent)

/-- A questioning state (one fallback question) with an answer typed into
the answer box. -/
def answeredWorld : World :=
  stepA contParseFn (.setAnswer "It helps dog owners find walkers")
    (runTrace contParseFn startFallbackTrace (initialWorld .absent))

/-- Witness for the amended C2: concrete null-outcome start, submit and
skip events. -/
theorem null_reply_fallback_behaviour_witness :
    ((stepA contParseFn (.start "Sat Oct 11 2025" .threw) typedWorld).app.questions =
        [getFallbackQuestion typedWorld.app.projectInput 0] ∧
      (stepA contParseFn (.start "Sat Oct 11 2025" .threw) typedWorld).app.page =
        .questioning) ∧
    ((stepA contParseFn (.submitAnswer .threw) answeredWorld).app.questions =
        answeredWorld.app.questions ++
          [getFallbackQuestion answeredWorld.app.projectInput
            (submitPrevQA answeredWorld.app).length] ∧
      (stepA contParseFn (.submitAnswer .threw) answeredWorld).app.page =
        .questioning) ∧
    ((stepA contParseFn (.skip .threw)
        (runTrace contParseFn startFallbackTrace (initialWorld .absent))).app.page =
        .summary ∧
      (stepA contParseFn (.skip .threw)
          (runTrace contParseFn startFallbackTrace (initialWorld .absent))).app.questions =
        (runTrace contParseFn startFallbackTrace (initialWorld .absent)).app.questions) :=
  ⟨(null_reply_fallback_behaviour contParseFn "Sat Oct 11 2025" .threw typedWorld).1
      rfl (by decide) (by decide) (.valid "Sat Oct 11 2025" 1) rfl rfl,
   (null_reply_fallback_behaviour contParseFn "Sat Oct 11 2025" .threw answeredWorld).2.1
      rfl (by decide) (by decide) rfl,
   (null_reply_fallback_behaviour contParseFn "Sat Oct 11 2025" .threw
      (runTrace contParseFn startFallbackTrace (initialWorld .absent))).2.2
      rfl (by decide) rfl⟩

/-- The id of a fallback question is the clamped answered count plus one
(the literal `id` fields of the fallback list). -/
theorem getFallbackQuestion_id (desc : String) (n : Nat) :
    (getFallbackQuestion desc n).id = min n 9 + 1 := by
  rcases Nat.lt_or_ge n 10 with h | h
  · interval_cases n <;> rfl
  · have h9 : min n 9 = 9 := by omega
    have h9' : min n ((fallbackQuestions desc).length - 1) = 9 := by
      have hlen : (fallbackQuestions desc).length = 10 := rfl
      rw [hlen]; omega
    unfold getFallbackQuestion
    rw [h9, h9']
    rfl

/-- Claim C4 (amended): a newly generated oracle question's id is one plus
the number of ANSWERED question/answer pairs passed to the generator
(`previousQA.length + 1`), and a fallback question's id is
`min(answeredCount, 9) + 1`; an appended question lands at 1-based
position `questions.length + 1`, so after skips the id lags the position
(the two agree only when every earlier question was answered, as in the
start transition where both are 1). -/
theorem question_id_formula (parse : String → Option OracleJson)
    (desc : String) (prev : List QA) (reply : OracleReply) (n : Nat)
    (w : World) :
    (∀ r : GenResult, generateNextQuestion parse desc prev reply = some r →
      r.shouldContinue = true → r.question.id = prev.length + 1) ∧
    (getFallbackQuestion desc n).id = min n 9 + 1 ∧
    (w.app.page = .questioning → jsTrim w.app.currentAnswer.data ≠ [] →
      (submitPrevQA w.app).length < 20 →
      ∀ r : GenResult,
        generateNextQuestion parse w.app.projectInput (submitPrevQA w.app) reply =
          some r →
        r.shouldContinue = true →
        (stepA parse (.submitAnswer reply) w).app.questions =
            w.app.questions ++ [r.question] ∧
          r.question.id = (submitPrevQA w.app).length + 1) := by
  refine ⟨fun r hgen hc => genNext_continue_id parse desc prev reply r hgen hc,
    getFallbackQuestion_id desc n, ?_⟩
  intro hpage hblank hlt r hgen hc
  refine ⟨?_, genNext_continue_id parse w.app.projectInput (submitPrevQA w.app)
    reply r hgen hc⟩
  simp only [stepA]
  rw [if_pos hpage]
  simp only [handleAnswerSubmit, hgen]
  rw [if_neg hblank, if_pos hlt]
  simp [hc]

/-- The continuing result `contParseFn` replies produce when `k - 1` pairs
were answered. -/
def contResult (k : Nat) : GenResult :=
  { question :=
      { id := k, category := "Scope", question := "Next?", icon := "Q",
        type := .standard },
    shouldContinue := true }

/-- Witness for the amended C4: the continuing decision after one answered
pair gets id 2 and is appended at position 2; with no answered pairs the
id is 1; the fallback id clamps at 10. -/
theorem question_id_formula_witness :
    ((contResult 1).question.id = ([] : List QA).length + 1) ∧
    ((getFallbackQuestion descX 999).id = min 999 9 + 1) ∧
    ((stepA contParseFn (.submitAnswer (.text "\x7ba\x7d")) answeredWorld).app.questions =
        answeredWorld.app.questions ++ [(contResult 2).question] ∧
      (contResult 2).question.id = (submitPrevQA answeredWorld.app).length + 1) :=
  ⟨(question_id_formula contParseFn descX [] (.text "\x7ba\x7d") 999 answeredWorld).1
      (contResult 1) rfl rfl,
   (question_id_formula contParseFn descX [] (.text "\x7ba\x7d") 999 answeredWorld).2.1,
   (question_id_formula contParseFn descX [] (.text "\x7ba\x7d") 999 answeredWorld).2.2
      rfl (by decide) (by decide) (contResult 2) rfl rfl⟩

/-! ### Reachability invariant: the answered count is bounded (claim C1) -/

/-- The keys (question indices) of the answer map. -/
def answerKeys (answers : List (Nat × String)) : List Nat :=
  answers.map Prod.fst

/-- Counting over an enumeration by a predicate on the indices alone. -/
theorem countP_enumFrom_fst {α : Type} (p : Nat → Bool) :
    ∀ (l : List α) (n : Nat),
      (List.enumFrom n l).countP (fun iq => p iq.1) =
        (List.range' n l.length).countP p := by
  intro l
  induction l with
  | nil => intro n; rfl
  | cons a l ih =>
    intro n
    rw [List.length_cons, List.range'_succ]
    simp only [List.enumFrom, List.countP_cons]
    rw [ih (n + 1)]

/-- The length of a `buildQA` context is the number of positions whose
answer function is non-empty. -/
theorem buildQA_length (qs : List Question) (f : Nat → String) :
    (buildQA qs f).length =
      (List.range qs.length).countP fun i => !(f i == "") := by
  unfold buildQA
  rw [← List.countP_eq_length_filter, List.countP_map]
  have h : ((fun qa : QA => !(qa.answer == "")) ∘
      fun p : Nat × Question => ({ question := p.2.question, answer := f p.1 } : QA)) =
      fun iq : Nat × Question => !(f iq.1 == "") := rfl
  rw [h]
  have h2 : qs.enum = List.enumFrom 0 qs := rfl
  rw [h2, countP_enumFrom_fst (fun i => !(f i == "")) qs 0, ← List.range_eq_range']

/-- A lookup succeeds exactly on the stored keys. -/
theorem lookup_isSome_iff (answers : List (Nat × String)) (i : Nat) :
    (answers.lookup i).isSome = true ↔ i ∈ answerKeys answers := by
  induction answers with
  | nil => simp [List.lookup, answerKeys]
  | cons p l ih =>
    rcases p with ⟨k, v⟩
    by_cases h : i = k
    · subst h; simp [List.lookup, answerKeys]
    · simp [List.lookup, answerKeys, h, ih, beq_false_of_ne h]

/-- A successful lookup returns a stored pair. -/
theorem lookup_mem (answers : List (Nat × String)) (i : Nat) (v : String)
    (h : answers.lookup i = some v) : (i, v) ∈ answers := by
  induction answers with
  | nil => simp [List.lookup] at h
  | cons p l ih =>
    rcases p with ⟨k, u⟩
    by_cases hik : i = k
    · subst hik
      simp [List.lookup] at h
      simp [h]
    · simp [List.lookup, beq_false_of_ne hik] at h
      exact List.mem_cons_of_mem _ (ih h)

/-- Counting the members of a duplicate-free key list inside `range m`. -/
theorem countP_range_mem (keys : List Nat) (m : Nat) (hnd : keys.Nodup)
    (hlt : ∀ k ∈ keys, k < m) :
    (List.range m).countP (fun i => decide (i ∈ keys)) = keys.length := by
  have hperm : ((List.range m).filter fun i => decide (i ∈ keys)).Perm keys := by
    refine (List.perm_ext_iff_of_nodup ((List.nodup_range m).filter _) hnd).mpr ?_
    intro a
    simp only [List.mem_filter, List.mem_range, decide_eq_true_eq]
    exact ⟨fun h => h.2, fun h => ⟨hlt a h, h⟩⟩
  rw [List.countP_eq_length_filter]
  exact hperm.length_eq

/-- When all stored answers are non-empty and all keys lie below `m`,
counting the positions below `m` with a truthy stored answer counts
exactly the stored answers. -/
theorem countP_range_lookup (answers : List (Nat × String)) (m : Nat)
    (hnd : (answerKeys answers).Nodup)
    (hv : ∀ p ∈ answers, p.2 ≠ "")
    (hlt : ∀ k ∈ answerKeys answers, k < m) :
    (List.range m).countP (fun i => !(lookupAnswer answers i == "")) =
      answers.length := by
  have hpt : ∀ i : Nat,
      (!(lookupAnswer answers i == "")) = decide (i ∈ answerKeys answers) := by
    intro i
    cases h : answers.lookup i with
    | none =>
      have hni : i ∉ answerKeys answers := by
        rw [← lookup_isSome_iff]; simp [h]
      simp [lookupAnswer, h, hni]
    | some v =>
      have hvne : v ≠ "" := hv (i, v) (lookup_mem answers i v h)
      have hmi : i ∈ answerKeys answers := by
        rw [← lookup_isSome_iff]; simp [h]
      simp [lookupAnswer, h, hvne, hmi]
  rw [show (fun i => !(lookupAnswer answers i == "")) =
      (fun i => decide (i ∈ answerKeys answers)) from funext hpt]
  rw [countP_range_mem _ m hnd hlt]
  simp [answerKeys]

/-- Pointwise-on-members congruence for `countP`. -/
theorem countP_congr_mem {α : Type} (l : List α) (p q : α → Bool)
    (h : ∀ a ∈ l, p a = q a) : l.countP p = l.countP q := by
  induction l with
  | nil => rfl
  | cons a l ih =>
    rw [List.countP_cons, List.countP_cons, h a (List.mem_cons_self a l),
      ih fun b hb => h b (List.mem_cons_of_mem a hb)]

/-- A non-empty trimmed answer comes from a non-empty answer. -/
theorem ne_empty_of_trim (s : String) (h : jsTrim s.data ≠ []) : s ≠ "" := by
  intro he
  subst he
  exact h rfl

/-- The `previousQA` of a submit counts the stored answers plus the one
being submitted, under the controller invariant. -/
theorem submitPrevQA_length (s : AppState)
    (hnd : (answerKeys s.answers).Nodup)
    (hv : ∀ p ∈ s.answers, p.2 ≠ "")
    (hlt : ∀ k ∈ answerKeys s.answers, k < s.currentQuestionIndex)
    (hq : s.currentQuestionIndex + 1 = s.questions.length)
    (hca : s.currentAnswer ≠ "") :
    (submitPrevQA s).length = s.answers.length + 1 := by
  unfold submitPrevQA
  rw [buildQA_length]
  have hlen : (s.questions.take (s.currentQuestionIndex + 1)).length =
      s.currentQuestionIndex + 1 := by
    rw [List.length_take]
    omega
  rw [hlen, List.range_succ, List.countP_append]
  have h1 : List.countP
      (fun i => !((if i == s.currentQuestionIndex then s.currentAnswer
        else lookupAnswer s.answers i) == ""))
      [s.currentQuestionIndex] = 1 := by
    simp [List.countP_cons, hca]
  have h2 : List.countP
      (fun i => !((if i == s.currentQuestionIndex then s.currentAnswer
        else lookupAnswer s.answers i) == ""))
      (List.range s.currentQuestionIndex) =
      List.countP (fun i => !(lookupAnswer s.answers i == ""))
        (List.range s.currentQuestionIndex) := by
    apply countP_congr_mem
    intro i hi
    rw [List.mem_range] at hi
    rw [if_neg (by simp; omega)]
  rw [h1, h2, countP_range_lookup s.answers _ hnd hv hlt]

/-- The `previousQA` of a skip counts exactly the stored answers, under
the controller invariant. -/
theorem skipPrevQA_length (s : AppState)
    (hnd : (answerKeys s.answers).Nodup)
    (hv : ∀ p ∈ s.answers, p.2 ≠ "")
    (hlt : ∀ k ∈ answerKeys s.answers, k < s.currentQuestionIndex)
    (hq : s.currentQuestionIndex + 1 = s.questions.length) :
    (skipPrevQA s).length = s.answers.length := by
  unfold skipPrevQA
  rw [buildQA_length]
  have hlen : (s.questions.take s.currentQuestionIndex).length =
      s.currentQuestionIndex := by
    rw [List.length_take]
    omega
  rw [hlen, countP_range_lookup s.answers _ hnd hv hlt]

/-- Inserting a fresh key appends the pair. -/
theorem mapInsert_fresh (answers : List (Nat × String)) (k : Nat) (v : String)
    (h : k ∉ answerKeys answers) :
    mapInsert answers k v = answers ++ [(k, v)] := by
  have hany : answers.any (fun p => p.1 == k) = false := by
    cases hA : answers.any (fun p => p.1 == k) with
    | false => rfl
    | true =>
      exfalso
      rcases List.any_eq_true.mp hA with ⟨p, hp, hpk⟩
      exact h (List.mem_map.mpr ⟨p, hp, beq_iff_eq.mp hpk⟩)
  unfold mapInsert
  rw [hany]
  simp

/-- The invariant maintained by every controller transition.  On the
questioning page: all answer keys lie strictly below the current index,
the index is the last position of the question list, and fewer than 20
answers are stored.  Globally: keys are distinct, stored answers are
non-empty, at most 20 answers exist, and the home page holds none. -/
structure GoodState (s : AppState) : Prop where
  nodupKeys : (answerKeys s.answers).Nodup
  valsNe : ∀ p ∈ s.answers, p.2 ≠ ""
  keysLt : s.page = .questioning → ∀ k ∈ answerKeys s.answers, k < s.currentQuestionIndex
  qLen : s.page = .questioning → s.currentQuestionIndex + 1 = s.questions.length
  ansLt : s.page = .questioning → s.answers.length < 20
  ansLe : s.answers.length ≤ 20
  homeEmpty : s.page = .home → s.answers = []

/-- Facts about the answer map after recording a fresh answer. -/
theorem appended_answers_facts (answers : List (Nat × String)) (idx : Nat)
    (v : String) (hnd : (answerKeys answers).Nodup)
    (hv : ∀ p ∈ answers, p.2 ≠ "")
    (hlt : ∀ k ∈ answerKeys answers, k < idx) (hvne : v ≠ "") :
    (answerKeys (answers ++ [(idx, v)])).Nodup ∧
    (∀ p ∈ answers ++ [(idx, v)], p.2 ≠ "") ∧
    (∀ k ∈ answerKeys (answers ++ [(idx, v)]), k < idx + 1) ∧
    (answers ++ [(idx, v)]).length = answers.length + 1 := by
  have hkeys : answerKeys (answers ++ [(idx, v)]) = answerKeys answers ++ [idx] := by
    simp [answerKeys]
  refine ⟨?_, ?_, ?_, by simp⟩
  · rw [hkeys, List.nodup_append]
    refine ⟨hnd, List.nodup_singleton idx, ?_⟩
    intro k hk hk'
    rw [List.mem_singleton] at hk'
    subst hk'
    exact absurd (hlt k hk) (lt_irrefl k)
  · intro p hp
    rcases List.mem_append.mp hp with hp | hp
    · exact hv p hp
    · rw [List.mem_singleton] at hp
      subst hp
      exact hvne
  · intro k hk
    rw [hkeys] at hk
    rcases List.mem_append.mp hk with hk | hk
    · exact Nat.lt_succ_of_lt (hlt k hk)
    · rw [List.mem_singleton] at hk
      omega

/-- `handleStartProject` preserves the invariant (from the home page the
answer map is empty, and every branch keeps it empty). -/
theorem goodState_start (parse : String → Option OracleJson) (today : String)
    (reply : OracleReply) (w : World) (hG : GoodState w.app)
    (hpage : w.app.page = .home) :
    GoodState (handleStartProject parse today reply w).app := by
  obtain ⟨⟨page, pin, qs, idx, ans, ca, ie⟩, rate⟩ := w
  have hempty : ans = [] := hG.homeEmpty hpage
  subst hempty
  have hpage' : page = Page.home := hpage
  subst hpage'
  unfold handleStartProject
  repeat' split
  all_goals refine ⟨?_, ?_, ?_, ?_, ?_, ?_, ?_⟩ <;> simp [answerKeys]

/-- `handleAnswerSubmit` preserves the invariant. -/
theorem goodState_submit (parse : String → Option OracleJson)
    (reply : OracleReply) (w : World) (hG : GoodState w.app)
    (hq : w.app.page = .questioning) :
    GoodState (handleAnswerSubmit parse reply w).app := by
  by_cases hblank : jsTrim w.app.currentAnswer.data = []
  · unfold handleAnswerSubmit
    rw [if_pos hblank]
    exact hG
  · have hca : w.app.currentAnswer ≠ "" := ne_empty_of_trim _ hblank
    have hkeys : ∀ k ∈ answerKeys w.app.answers, k < w.app.currentQuestionIndex :=
      hG.keysLt hq
    have hprev : (submitPrevQA w.app).length = w.app.answers.length + 1 :=
      submitPrevQA_length w.app hG.nodupKeys hG.valsNe hkeys (hG.qLen hq) hca
    have hfresh : w.app.currentQuestionIndex ∉ answerKeys w.app.answers :=
      fun hmem => absurd (hkeys _ hmem) (lt_irrefl _)
    have hins := mapInsert_fresh w.app.answers w.app.currentQuestionIndex
      w.app.currentAnswer hfresh
    obtain ⟨hnd', hv', hklt', hlen'⟩ :=
      appended_answers_facts w.app.answers w.app.currentQuestionIndex
        w.app.currentAnswer hG.nodupKeys hG.valsNe hkeys hca
    have hql := hG.qLen hq
    have halt := hG.ansLt hq
    unfold handleAnswerSubmit
    rw [if_neg hblank]
    split
    · rename_i hlt20
      rw [hprev] at hlt20
      split
      · rename_i r hgen
        split
        · -- continuing decision: append the question, record the answer
          refine ⟨?_, ?_, ?_, ?_, ?_, ?_, ?_⟩
          · simpa only [hins] using hnd'
          · simpa only [hins] using hv'
          · intro _ k hk
            simp only [hins] at hk
            exact hklt' k hk
          · intro _
            simp only [List.length_append, List.length_cons, List.length_nil]
            omega
          · intro _
            simp only [hins, hlen']
            omega
          · simp only [hins, hlen']
            omega
          · intro h
            exact absurd (hq.symm.trans h) (by decide)
        · -- stop decision: summary
          refine ⟨?_, ?_, ?_, ?_, ?_, ?_, ?_⟩
          · simpa only [hins] using hnd'
          · simpa only [hins] using hv'
          · intro h
            simp at h
          · intro h
            simp at h
          · intro h
            simp at h
          · simp only [hins, hlen']
            omega
          · intro h
            simp at h
      · -- null outcome: append the fallback question, record the answer
        refine ⟨?_, ?_, ?_, ?_, ?_, ?_, ?_⟩
        · simpa only [hins] using hnd'
        · simpa only [hins] using hv'
        · intro _ k hk
          simp only [hins] at hk
          exact hklt' k hk
        · intro _
          simp only [List.length_append, List.length_cons, List.length_nil]
          omega
        · intro _
          simp only [hins, hlen']
          omega
        · simp only [hins, hlen']
          omega
        · intro h
          exact absurd (hq.symm.trans h) (by decide)
    · -- twenty answered pairs: summary
      refine ⟨?_, ?_, ?_, ?_, ?_, ?_, ?_⟩
      · simpa only [hins] using hnd'
      · simpa only [hins] using hv'
      · intro h
        simp at h
      · intro h
        simp at h
      · intro h
        simp at h
      · simp only [hins, hlen']
        omega
      · intro h
        simp at h

/-- `skipQuestion` preserves the invariant (the answer map is untouched). -/
theorem goodState_skip (parse : String → Option OracleJson)
    (reply : OracleReply) (w : World) (hG : GoodState w.app)
    (hq : w.app.page = .questioning) :
    GoodState (skipQuestion parse reply w).app := by
  have hql := hG.qLen hq
  unfold skipQuestion
  split
  · split
    · split
      · -- continuing decision: append the question
        refine ⟨hG.nodupKeys, hG.valsNe, ?_, ?_, ?_, hG.ansLe, ?_⟩
        · intro _ k hk
          exact Nat.lt_succ_of_lt (hG.keysLt hq k hk)
        · intro _
          simp only [List.length_append, List.length_cons, List.length_nil]
          omega
        · intro _
          exact hG.ansLt hq
        · intro h
          exact absurd (hq.symm.trans h) (by decide)
      · -- stop decision: summary
        refine ⟨hG.nodupKeys, hG.valsNe, ?_, ?_, ?_, hG.ansLe, ?_⟩ <;>
          intro h <;> simp at h
    · -- null outcome: summary
      refine ⟨hG.nodupKeys, hG.valsNe, ?_, ?_, ?_, hG.ansLe, ?_⟩ <;>
        intro h <;> simp at h
  · -- twenty answered pairs: summary
    refine ⟨hG.nodupKeys, hG.valsNe, ?_, ?_, ?_, hG.ansLe, ?_⟩ <;>
      intro h <;> simp at h

/-- Every user event preserves the controller invariant. -/
theorem goodState_step (parse : String → Option OracleJson) (a : UserAction)
    (w : World) (hG : GoodState w.app) : GoodState (stepA parse a w).app := by
  cases a with
  | setInput v =>
    simp only [stepA]
    split
    · exact ⟨hG.nodupKeys, hG.valsNe, hG.keysLt, hG.qLen, hG.ansLt, hG.ansLe,
        hG.homeEmpty⟩
    · exact hG
  | setAnswer v =>
    simp only [stepA]
    split
    · exact ⟨hG.nodupKeys, hG.valsNe, hG.keysLt, hG.qLen, hG.ansLt, hG.ansLe,
        hG.homeEmpty⟩
    · exact hG
  | start today reply =>
    simp only [stepA]
    split
    · rename_i h
      exact goodState_start parse today reply w hG h.1
    · exact hG
  | submitAnswer reply =>
    simp only [stepA]
    split
    · rename_i h
      exact goodState_submit parse reply w hG h
    · exact hG
  | skip reply =>
    simp only [stepA]
    split
    · rename_i h
      exact goodState_skip parse reply w hG h
    · exact hG
  | finish =>
    simp only [stepA]
    split
    · refine ⟨hG.nodupKeys, hG.valsNe, ?_, ?_, ?_, hG.ansLe, ?_⟩ <;>
        intro h <;> simp [finishQuestioning] at h
    · exact hG
  | reset =>
    simp only [stepA]
    split
    · refine ⟨?_, ?_, ?_, ?_, ?_, ?_, ?_⟩ <;> simp [answerKeys, resetApp]
    · exact hG

/-- Every reachable state satisfies the controller invariant. -/
theorem goodState_reach (parse : String → Option OracleJson)
    (r0 : StoredState) (w : World) (h : Reach parse r0 w) : GoodState w.app := by
  induction h with
  | init => refine ⟨?_, ?_, ?_, ?_, ?_, ?_, ?_⟩ <;> simp [initialWorld, answerKeys]
  | next h a ih => exact goodState_step parse a _ ih

/-- Claim C1 (amended): in every reachable state the number of RECORDED
ANSWERS is at most 20, and strictly below 20 while the session is still
questioning.  The question list itself is NOT bounded by 20 — see
`questionHistory_exceeds_20` — because the 20-cap in `handleAnswerSubmit`
and `skipQuestion` counts only answered question/answer pairs, which a
skipped question never joins. -/
theorem answeredCount_le_20 (parse : String → Option OracleJson)
    (r0 : StoredState) (w : World) (h : Reach parse r0 w) :
    w.app.answers.length ≤ 20 ∧
    (w.app.page = .questioning → w.app.answers.length < 20) :=
  ⟨(goodState_reach parse r0 w h).ansLe, (goodState_reach parse r0 w h).ansLt⟩

/-- Witness for the amended C1 at a concrete reachable three-event state. -/
theorem answeredCount_le_20_witness :
    (stepA contParseFn (.skip (.text "\x7ba\x7d"))
        (stepA contParseFn (.start "Sat Oct 11 2025" .threw)
          (stepA contParseFn (.setInput descX)
            (initialWorld .absent)))).app.answers.length ≤ 20 ∧
    ((stepA contParseFn (.skip (.text "\x7ba\x7d"))
        (stepA contParseFn (.start "Sat Oct 11 2025" .threw)
          (stepA contParseFn (.setInput descX)
            (initialWorld .absent)))).app.page = .questioning →
      (stepA contParseFn (.skip (.text "\x7ba\x7d"))
          (stepA contParseFn (.start "Sat Oct 11 2025" .threw)
            (stepA contParseFn (.setInput descX)
              (initialWorld .absent)))).app.answers.length < 20) :=
  answeredCount_le_20 contParseFn .absent _
    (Reach.next (Reach.next (Reach.next Reach.init (.setInput descX))
      (.start "Sat Oct 11 2025" .threw)) (.skip (.text "\x7ba\x7d")))
